import Mathlib

/-!
Shallow embedding of `vendor/github.com/pion/dtls/v2/crypto.go`.

Bytes are modelled as `Nat` (every value written into a buffer is reduced
modulo 256 at the point where Go's type system or an explicit conversion
forces it into 8 bits).  Certificates, hash functions, signing and
verification primitives from the Go standard library (`crypto/x509`,
`crypto/ed25519`, `crypto/ecdsa`, `crypto/rsa`, `encoding/asn1`,
`crypto/sha256`) are external collaborators of this file: they are passed
in as explicit function arguments or carried inside the key variants, so
every theorem below quantifies over their behaviour.  `time.Now()` is
modelled as an explicit `now` argument.
-/

set_option maxRecDepth 100000

namespace Dtls

/-- The error values of the Go package that this file can return, named after
the Go error variables.  The spec's taxonomy maps onto them as follows:
`EmptyChain` = `errLengthMismatch`, `UnsupportedKeyType` =
`errKeySignatureGenerateUnimplemented` / `errKeySignatureVerifyUnimplemented`
/ `errInvalidSignatureAlgorithm`, `SignatureMismatch` =
`errKeySignatureMismatch`, `InvalidSignatureEncoding` =
`errInvalidECDSASignature`.  Errors produced by external collaborators
(`x509.ParseCertificate`, `asn1.Unmarshal`, `rsa.VerifyPKCS1v15`,
`x509.Certificate.Verify`) are returned verbatim by the Go code, so the
model gives them payload-carrying constructors. -/
inductive CryptoError where
  | errLengthMismatch
  | errKeySignatureMismatch
  | errInvalidECDSASignature
  | errKeySignatureGenerateUnimplemented
  | errKeySignatureVerifyUnimplemented
  | errInvalidSignatureAlgorithm
  | certParseError (code : Nat)
  | asn1Error (code : Nat)
  | rsaVerificationError (code : Nat)
  | chainValidationError (code : Nat)
  deriving DecidableEq, Repr

/-- `bePut n v` is the `n`-byte big-endian encoding of the low `8*n` bits of
`v`; it models `binary.BigEndian.PutUint16` / `PutUint64` writing into an
`n`-byte window. -/
def bePut : Nat → Nat → List Nat
  | 0, _ => []
  | n + 1, v => bePut n (v / 256) ++ [v % 256]

/-- `putBytes arr off bytes` overwrites `arr` starting at offset `off` with
`bytes`, leaving the rest unchanged: the model of writing into a slice of a
Go byte array. -/
def putBytes (arr : List Nat) (off : Nat) (bytes : List Nat) : List Nat :=
  arr.take off ++ bytes ++ arr.drop (off + bytes.length)

/-- `hashAlgorithm` (defined in `hash_algorithm.go`, outside this file) is
used here only through its two pure operations: `digest` hashes a byte
string, `cryptoHash` is the numeric `crypto.Hash` identifier handed to the
signing primitive.  Both are abstract. -/
structure hashAlgorithm where
  digest : List Nat → List Nat
  cryptoHash : Nat

/-- The private-key variants dispatched on by the Go code.  Each variant
carries its (abstract, deterministic) signing primitive: `ed25519Priv.sign`
models `ed25519.PrivateKey.Sign(rand, message, crypto.Hash(0))` as a function
of the message; `ecdsaPriv.sign` / `rsaPriv.sign` model
`Sign(rand, digest, hash)` as functions of the digest and the `crypto.Hash`
identifier.  `otherPriv` stands for every other `crypto.PrivateKey`. -/
inductive PrivateKey where
  | ed25519Priv (sign : List Nat → List Nat)
  | ecdsaPriv (sign : List Nat → Nat → List Nat)
  | rsaPriv (sign : List Nat → Nat → List Nat)
  | otherPriv (k : Nat)

/-- The public-key variants found in a parsed certificate.  `ed25519Pub`
carries `ed25519.Verify(pub, message, sig)`; `ecdsaPub` carries
`ecdsa.Verify(pub, digest, R, S)`; `rsaPub` carries
`rsa.VerifyPKCS1v15(pub, hash, digest, sig)` (which returns `nil` or an
error, hence `Except`).  `otherPub` stands for every other key type. -/
inductive PublicKey where
  | ed25519Pub (verify : List Nat → List Nat → Bool)
  | ecdsaPub (verify : List Nat → Int → Int → Bool)
  | rsaPub (verifyPKCS1v15 : Nat → List Nat → List Nat → Except CryptoError Unit)
  | otherPub (k : Nat)

instance : Inhabited PublicKey := ⟨.otherPub 0⟩

/-- The `x509.SignatureAlgorithm` values the Go code inspects; every value
other than the four PKCS#1 v1.5 families is collapsed into
`otherAlgorithm`. -/
inductive SignatureAlgorithm where
  | SHA1WithRSA
  | SHA256WithRSA
  | SHA384WithRSA
  | SHA512WithRSA
  | otherAlgorithm (k : Nat)

/-- The slice of `x509.Certificate` that this file reads: the leaf public key
and the certificate's declared signature algorithm.  `certId` distinguishes
certificates that agree on both. -/
structure Certificate where
  publicKey : PublicKey
  signatureAlgorithm : SignatureAlgorithm
  certId : Nat

instance : Inhabited Certificate := ⟨.otherPub 0, .otherAlgorithm 0, 0⟩

/-- `valueKeyMessage` from crypto.go: the canonical byte string signed to
prove possession of the ephemeral key.  `namedCurve` is a `uint16` enum in
Go, modelled as a `Nat` whose low 16 bits are written; `byte(len(publicKey))`
is the Go conversion to `byte`, i.e. reduction modulo 256. -/
def valueKeyMessage (clientRandom serverRandom publicKey : List Nat)
    (namedCurve : Nat) : List Nat :=
  let serverECDHParams := [3] ++ bePut 2 namedCurve ++ [publicKey.length % 256]
  clientRandom ++ serverRandom ++ serverECDHParams ++ publicKey

/-- `generateKeySignature` from crypto.go: build the canonical message, then
dispatch on the private-key variant. -/
def generateKeySignature (clientRandom serverRandom publicKey : List Nat)
    (namedCurve : Nat) (privateKey : PrivateKey) (hashAlg : hashAlgorithm) :
    Except CryptoError (List Nat) :=
  let msg := valueKeyMessage clientRandom serverRandom publicKey namedCurve
  match privateKey with
  | .ed25519Priv sign => .ok (sign msg)
  | .ecdsaPriv sign => .ok (sign (hashAlg.digest msg) hashAlg.cryptoHash)
  | .rsaPriv sign => .ok (sign (hashAlg.digest msg) hashAlg.cryptoHash)
  | .otherPriv _ => .error .errKeySignatureGenerateUnimplemented

/-- `verifyKeySignature` from crypto.go.  `parseCertificate` models
`x509.ParseCertificate`, `asn1Unmarshal` models `asn1.Unmarshal` into an
`ecdsaSignature{R, S}` pair (`big.Int.Sign() <= 0` is `≤ 0` on `Int`). -/
def verifyKeySignature
    (parseCertificate : List Nat → Except CryptoError Certificate)
    (asn1Unmarshal : List Nat → Except CryptoError (Int × Int))
    (message remoteKeySignature : List Nat) (hashAlg : hashAlgorithm)
    (rawCertificates : List (List Nat)) : Except CryptoError Unit :=
  match rawCertificates with
  | [] => .error .errLengthMismatch
  | raw0 :: _ =>
    match parseCertificate raw0 with
    | .error e => .error e
    | .ok certificate =>
      match certificate.publicKey with
      | .ed25519Pub verify =>
        if verify message remoteKeySignature then .ok ()
        else .error .errKeySignatureMismatch
      | .ecdsaPub verify =>
        match asn1Unmarshal remoteKeySignature with
        | .error e => .error e
        | .ok (r, s) =>
          if r ≤ 0 ∨ s ≤ 0 then .error .errInvalidECDSASignature
          else
            let hashed := hashAlg.digest message
            if verify hashed r s then .ok ()
            else .error .errKeySignatureMismatch
      | .rsaPub verifyPKCS1v15 =>
        match certificate.signatureAlgorithm with
        | .SHA1WithRSA | .SHA256WithRSA | .SHA384WithRSA | .SHA512WithRSA =>
          let hashed := hashAlg.digest message
          verifyPKCS1v15 hashAlg.cryptoHash hashed remoteKeySignature
        | .otherAlgorithm _ => .error .errKeySignatureVerifyUnimplemented
      | .otherPub _ => .error .errKeySignatureVerifyUnimplemented

/-- `generateCertificateVerify` from crypto.go.  `sha256Sum` models the
`crypto/sha256` hash of the handshake transcript (its `Write` never fails);
note that ALL THREE key variants sign `hashed`, the SHA-256 digest -- the
Ed25519 branch included. -/
def generateCertificateVerify (sha256Sum : List Nat → List Nat)
    (handshakeBodies : List Nat) (privateKey : PrivateKey)
    (hashAlg : hashAlgorithm) : Except CryptoError (List Nat) :=
  let hashed := sha256Sum handshakeBodies
  match privateKey with
  | .ed25519Priv sign => .ok (sign hashed)
  | .ecdsaPriv sign => .ok (sign hashed hashAlg.cryptoHash)
  | .rsaPriv sign => .ok (sign hashed hashAlg.cryptoHash)
  | .otherPriv _ => .error .errInvalidSignatureAlgorithm

/-- `verifyCertificateVerify` from crypto.go: the Ed25519 branch verifies
over the raw `handshakeBodies`, the ECDSA/RSA branches over
`hashAlg.digest handshakeBodies`. -/
def verifyCertificateVerify
    (parseCertificate : List Nat → Except CryptoError Certificate)
    (asn1Unmarshal : List Nat → Except CryptoError (Int × Int))
    (handshakeBodies : List Nat) (hashAlg : hashAlgorithm)
    (remoteKeySignature : List Nat)
    (rawCertificates : List (List Nat)) : Except CryptoError Unit :=
  match rawCertificates with
  | [] => .error .errLengthMismatch
  | raw0 :: _ =>
    match parseCertificate raw0 with
    | .error e => .error e
    | .ok certificate =>
      match certificate.publicKey with
      | .ed25519Pub verify =>
        if verify handshakeBodies remoteKeySignature then .ok ()
        else .error .errKeySignatureMismatch
      | .ecdsaPub verify =>
        match asn1Unmarshal remoteKeySignature with
        | .error e => .error e
        | .ok (r, s) =>
          if r ≤ 0 ∨ s ≤ 0 then .error .errInvalidECDSASignature
          else
            let hash := hashAlg.digest handshakeBodies
            if verify hash r s then .ok ()
            else .error .errKeySignatureMismatch
      | .rsaPub verifyPKCS1v15 =>
        match certificate.signatureAlgorithm with
        | .SHA1WithRSA | .SHA256WithRSA | .SHA384WithRSA | .SHA512WithRSA =>
          let hash := hashAlg.digest handshakeBodies
          verifyPKCS1v15 hashAlg.cryptoHash hash remoteKeySignature
        | .otherAlgorithm _ => .error .errKeySignatureVerifyUnimplemented
      | .otherPub _ => .error .errKeySignatureVerifyUnimplemented

/-- The loop body of `loadCerts`: parse each raw certificate in order,
appending to the accumulator, returning the parse error of the first
unparseable element. -/
def loadCertsAux (parseCertificate : List Nat → Except CryptoError Certificate)
    (acc : List Certificate) :
    List (List Nat) → Except CryptoError (List Certificate)
  | [] => .ok acc
  | rawCert :: rest =>
    match parseCertificate rawCert with
    | .error e => .error e
    | .ok cert => loadCertsAux parseCertificate (acc ++ [cert]) rest

/-- `loadCerts` from crypto.go. -/
def loadCerts (parseCertificate : List Nat → Except CryptoError Certificate)
    (rawCertificates : List (List Nat)) :
    Except CryptoError (List Certificate) :=
  if rawCertificates.length = 0 then .error .errLengthMismatch
  else loadCertsAux parseCertificate [] rawCertificates

/-- `x509.NewCertPool()`: a pool is modelled as the list of certificates
added to it. -/
def newCertPool : List Certificate := []

/-- `x509.CertPool.AddCert`. -/
def addCert (pool : List Certificate) (cert : Certificate) :
    List Certificate := pool ++ [cert]

/-- The Go constant `x509.ExtKeyUsageClientAuth` (value 2 in crypto/x509). -/
def ExtKeyUsageClientAuth : Nat := 2

/-- The slice of `x509.VerifyOptions` populated by this file. -/
structure VerifyOptions where
  Roots : List Certificate
  CurrentTime : Nat
  DNSName : String
  Intermediates : List Certificate
  KeyUsages : List Nat

/-- `verifyClientCert` from crypto.go.  `certVerify` models the external
`x509.Certificate.Verify` method, `now` models `time.Now()`.  Fields not
assigned by the Go literal keep their zero value (`DNSName = ""`). -/
def verifyClientCert
    (parseCertificate : List Nat → Except CryptoError Certificate)
    (certVerify : Certificate → VerifyOptions →
      Except CryptoError (List (List Certificate)))
    (now : Nat) (rawCertificates : List (List Nat))
    (roots : List Certificate) :
    Except CryptoError (List (List Certificate)) :=
  match loadCerts parseCertificate rawCertificates with
  | .error e => .error e
  | .ok certificate =>
    let intermediateCAPool := (certificate.drop 1).foldl addCert newCertPool
    certVerify certificate.headI
      { Roots := roots, CurrentTime := now, DNSName := "",
        Intermediates := intermediateCAPool,
        KeyUsages := [ExtKeyUsageClientAuth] }

/-- `verifyServerCert` from crypto.go.  Fields not assigned by the Go
literal keep their zero value (`KeyUsages = nil`). -/
def verifyServerCert
    (parseCertificate : List Nat → Except CryptoError Certificate)
    (certVerify : Certificate → VerifyOptions →
      Except CryptoError (List (List Certificate)))
    (now : Nat) (rawCertificates : List (List Nat))
    (roots : List Certificate) (serverName : String) :
    Except CryptoError (List (List Certificate)) :=
  match loadCerts parseCertificate rawCertificates with
  | .error e => .error e
  | .ok certificate =>
    let intermediateCAPool := (certificate.drop 1).foldl addCert newCertPool
    certVerify certificate.headI
      { Roots := roots, CurrentTime := now, DNSName := serverName,
        Intermediates := intermediateCAPool, KeyUsages := [] }

/-- The protocol-version pair of `recordLayerHeader` (two `byte` fields). -/
structure protocolVersion where
  major : Nat
  minor : Nat

/-- The slice of `recordLayerHeader` read by `generateAEADAdditionalData`:
`epoch` is `uint16`, `sequenceNumber` is `uint64`, `contentType` is a
`uint8`-based enum. -/
structure recordLayerHeader where
  epoch : Nat
  sequenceNumber : Nat
  contentType : Nat
  protocolVersion : protocolVersion

/-- `generateAEADAdditionalData` from crypto.go, kept as the same sequence of
writes into a 13-byte array: `PutUint64` of the sequence number first, then
`PutUint16` of the epoch clobbering bytes 0-1, then content type, version
major/minor, and `PutUint16` of `uint16(payloadLen)` into the last two
bytes. -/
def generateAEADAdditionalData (h : recordLayerHeader) (payloadLen : Nat) :
    List Nat :=
  let additionalData := List.replicate 13 0
  let additionalData := putBytes additionalData 0 (bePut 8 h.sequenceNumber)
  let additionalData := putBytes additionalData 0 (bePut 2 h.epoch)
  let additionalData := putBytes additionalData 8 [h.contentType % 256]
  let additionalData := putBytes additionalData 9 [h.protocolVersion.major]
  let additionalData := putBytes additionalData 10 [h.protocolVersion.minor]
  putBytes additionalData (13 - 2) (bePut 2 payloadLen)

/-- A concrete certificate carrying an ECDSA public key whose verification
primitive accepts everything (used to exhibit that rejection of non-positive
(R, S) happens before verification is consulted). -/
def ecdsaDemoCert : Certificate :=
  ⟨.ecdsaPub (fun _ _ _ => true), .otherAlgorithm 0, 0⟩

/-- A concrete parser that accepts every input as `ecdsaDemoCert`. -/
def demoParseEcdsa : List Nat → Except CryptoError Certificate :=
  fun _ => .ok ecdsaDemoCert

/-- A concrete ASN.1 decoder returning the pair (0, 1). -/
def demoAsn1 : List Nat → Except CryptoError (Int × Int) :=
  fun _ => .ok (0, 1)

/-- A concrete hash algorithm: identity digest, `crypto.Hash` id 4. -/
def demoHashAlg : hashAlgorithm := ⟨fun l => l, 4⟩

/-- A concrete certificate carrying an RSA public key, declared signature
algorithm SHA256WithRSA, and a PKCS#1 v1.5 verifier that accepts
everything. -/
def rsaDemoCert : Certificate :=
  ⟨.rsaPub (fun _ _ _ => .ok ()), .SHA256WithRSA, 1⟩

/-- A concrete parser that accepts every input as `rsaDemoCert`. -/
def demoParseRsa : List Nat → Except CryptoError Certificate :=
  fun _ => .ok rsaDemoCert

/-- A concrete parser that accepts exactly the empty byte string. -/
def demoParseByLen : List Nat → Except CryptoError Certificate :=
  fun b => if b.length = 0 then .ok default else .error (.certParseError 9)

/-- A concrete `x509.Certificate.Verify` stand-in returning the single chain
consisting of the leaf alone. -/
def demoCertVerify : Certificate → VerifyOptions →
    Except CryptoError (List (List Certificate)) :=
  fun c _ => .ok [[c]]

/-- A concrete stand-in for the SHA-256 digest: constant 32 zero bytes (all
that matters below is that it moves the one-byte transcript `[1]`). -/
def demoSha256 : List Nat → List Nat := fun _ => List.replicate 32 0

/-- A toy deterministic Ed25519: `sign` is the identity, so `verify m s`
holds exactly when `s = m`.  `demoParseEdToy` parses everything into a
certificate carrying that verifier. -/
def demoParseEdToy : List Nat → Except CryptoError Certificate :=
  fun _ => .ok ⟨.ed25519Pub (fun m s => m == s), .otherAlgorithm 0, 2⟩

theorem bePut_length (n v : Nat) : (bePut n v).length = n := by
  induction n generalizing v with
  | zero => rfl
  | succ n ih => simp [bePut, ih]

/-- C2: `generateAEADAdditionalData` returns exactly 13 bytes, big-endian:
epoch in bytes 0-1, the low 48 bits of the sequence number in bytes 2-7
(higher bits are dropped by the epoch overwrite), content type in byte 8,
protocol-version major/minor in bytes 9-10, the 16-bit payload length in
bytes 11-12; and on header {epoch=1, sequenceNumber=5, contentType=23,
version={254,253}} with payloadLength=16 the output is
00 01 00 00 00 00 00 05 17 FE FD 00 10. -/
theorem generateAEADAdditionalData_layout (h : recordLayerHeader)
    (payloadLen : Nat) :
    generateAEADAdditionalData h payloadLen =
      bePut 2 h.epoch ++ bePut 6 (h.sequenceNumber % 2 ^ 48) ++
        [h.contentType % 256, h.protocolVersion.major,
          h.protocolVersion.minor] ++ bePut 2 payloadLen ∧
    (generateAEADAdditionalData h payloadLen).length = 13 ∧
    generateAEADAdditionalData
        { epoch := 1, sequenceNumber := 5, contentType := 23,
          protocolVersion := { major := 254, minor := 253 } } 16 =
      [0x00, 0x01, 0x00, 0x00, 0x00, 0x00, 0x00, 0x05, 0x17, 0xFE, 0xFD,
        0x00, 0x10] := by
  have hmain : generateAEADAdditionalData h payloadLen =
      bePut 2 h.epoch ++ bePut 6 (h.sequenceNumber % 2 ^ 48) ++
        [h.contentType % 256, h.protocolVersion.major,
          h.protocolVersion.minor] ++ bePut 2 payloadLen := by
    simp [generateAEADAdditionalData, putBytes, bePut]
    omega
  refine ⟨hmain, ?_, by decide⟩
  rw [hmain]
  simp [bePut_length]

/-- C3 counterexample: for a 256-byte public key the canonicalizer does NOT
emit a length byte equal to the length of the key (it emits 0, the length
reduced modulo 256). -/
theorem valueKeyMessage_len_counterexample :
    valueKeyMessage [] [] (List.replicate 256 0) 0 ≠
      [] ++ [] ++ ([3] ++ bePut 2 0 ++ [(List.replicate 256 0).length]) ++
        List.replicate 256 0 := by decide

/-- C3 (amended): when the public key is at most 255 bytes long, the
canonicalizer returns exactly clientRandom || serverRandom || curveParams ||
publicKey, with curveParams = tag byte 3, 2-byte big-endian curve id, and a
1-byte length equal to the length of publicKey; there is no error path. -/
theorem valueKeyMessage_layout (clientRandom serverRandom publicKey : List Nat)
    (namedCurve : Nat) (hlen : publicKey.length ≤ 255) :
    valueKeyMessage clientRandom serverRandom publicKey namedCurve =
      clientRandom ++ serverRandom ++
        ([3] ++ bePut 2 namedCurve ++ [publicKey.length]) ++ publicKey := by
  simp [valueKeyMessage]
  omega

theorem valueKeyMessage_layout_witness :
    (List.replicate 3 7).length ≤ 255 ∧
      valueKeyMessage [1] [2] (List.replicate 3 7) 23 =
        [1] ++ [2] ++ ([3] ++ bePut 2 23 ++ [(List.replicate 3 7).length]) ++
          List.replicate 3 7 :=
  ⟨by decide, valueKeyMessage_layout [1] [2] (List.replicate 3 7) 23
    (by decide)⟩

/-- C10: for a public key longer than 255 bytes the canonicalizer still
returns a result with no error: the 1-byte length field holds the key length
reduced modulo 256 while the whole key is appended, so the declared and the
actual length disagree. -/
theorem valueKeyMessage_length_overflow
    (clientRandom serverRandom publicKey : List Nat) (namedCurve : Nat)
    (hlen : 255 < publicKey.length) :
    valueKeyMessage clientRandom serverRandom publicKey namedCurve =
      clientRandom ++ serverRandom ++
        ([3] ++ bePut 2 namedCurve ++ [publicKey.length % 256]) ++
        publicKey ∧
      publicKey.length % 256 ≠ publicKey.length := by
  exact ⟨rfl, by omega⟩

theorem valueKeyMessage_length_overflow_witness :
    255 < (List.replicate 256 1).length ∧
      (valueKeyMessage [] [] (List.replicate 256 1) 0 =
          [] ++ [] ++
            ([3] ++ bePut 2 0 ++ [(List.replicate 256 1).length % 256]) ++
            List.replicate 256 1 ∧
        (List.replicate 256 1).length % 256 ≠ (List.replicate 256 1).length) :=
  ⟨by decide, valueKeyMessage_length_overflow [] [] (List.replicate 256 1) 0
    (by decide)⟩

/-- C4: `generateKeySignature` builds the canonical key-exchange message and
then: an Ed25519 private key signs the raw message with no pre-hashing; ECDSA
and RSA private keys sign `hashAlg.digest message` under the hash identifier
`hashAlg.cryptoHash`; any other key variant fails with
`errKeySignatureGenerateUnimplemented` (the spec's UnsupportedKeyType). -/
theorem generateKeySignature_dispatch
    (clientRandom serverRandom publicKey : List Nat) (namedCurve : Nat)
    (hashAlg : hashAlgorithm) (eSign : List Nat → List Nat)
    (cSign rSign : List Nat → Nat → List Nat) (k : Nat) :
    generateKeySignature clientRandom serverRandom publicKey namedCurve
        (.ed25519Priv eSign) hashAlg =
      .ok (eSign (valueKeyMessage clientRandom serverRandom publicKey
        namedCurve)) ∧
    generateKeySignature clientRandom serverRandom publicKey namedCurve
        (.ecdsaPriv cSign) hashAlg =
      .ok (cSign (hashAlg.digest (valueKeyMessage clientRandom serverRandom
        publicKey namedCurve)) hashAlg.cryptoHash) ∧
    generateKeySignature clientRandom serverRandom publicKey namedCurve
        (.rsaPriv rSign) hashAlg =
      .ok (rSign (hashAlg.digest (valueKeyMessage clientRandom serverRandom
        publicKey namedCurve)) hashAlg.cryptoHash) ∧
    generateKeySignature clientRandom serverRandom publicKey namedCurve
        (.otherPriv k) hashAlg =
      .error .errKeySignatureGenerateUnimplemented :=
  ⟨rfl, rfl, rfl, rfl⟩

/-- C5: in both verifiers, when the leaf certificate carries an ECDSA public
key and the signature decodes to a pair (R, S) with R ≤ 0 or S ≤ 0, the call
fails with `errInvalidECDSASignature` (the spec's InvalidSignatureEncoding)
regardless of the verification primitive `vf`, i.e. before any cryptographic
verification is consulted. -/
theorem ecdsa_nonpositive_rejected
    (parseCertificate : List Nat → Except CryptoError Certificate)
    (asn1Unmarshal : List Nat → Except CryptoError (Int × Int))
    (message handshakeBodies remoteKeySignature raw0 : List Nat)
    (hashAlg : hashAlgorithm) (rest : List (List Nat)) (cert : Certificate)
    (vf : List Nat → Int → Int → Bool) (r s : Int)
    (hparse : parseCertificate raw0 = .ok cert)
    (hkey : cert.publicKey = .ecdsaPub vf)
    (hdec : asn1Unmarshal remoteKeySignature = .ok (r, s))
    (hrs : r ≤ 0 ∨ s ≤ 0) :
    verifyKeySignature parseCertificate asn1Unmarshal message
        remoteKeySignature hashAlg (raw0 :: rest) =
      .error .errInvalidECDSASignature ∧
    verifyCertificateVerify parseCertificate asn1Unmarshal handshakeBodies
        hashAlg remoteKeySignature (raw0 :: rest) =
      .error .errInvalidECDSASignature := by
  constructor <;>
    simp [verifyKeySignature, verifyCertificateVerify, hparse, hkey, hdec,
      hrs]

theorem ecdsa_nonpositive_rejected_witness :
    demoParseEcdsa [0] = .ok ecdsaDemoCert ∧
    ecdsaDemoCert.publicKey = .ecdsaPub (fun _ _ _ => true) ∧
    demoAsn1 [9] = .ok (0, 1) ∧
    ((0 : Int) ≤ 0 ∨ (1 : Int) ≤ 0) ∧
    (verifyKeySignature demoParseEcdsa demoAsn1 [1] [9] demoHashAlg
        [[0]] = .error .errInvalidECDSASignature ∧
      verifyCertificateVerify demoParseEcdsa demoAsn1 [2] demoHashAlg [9]
        [[0]] = .error .errInvalidECDSASignature) :=
  ⟨rfl, rfl, rfl, Or.inl le_rfl,
    ecdsa_nonpositive_rejected demoParseEcdsa demoAsn1 [1] [2] [9] [0]
      demoHashAlg [] ecdsaDemoCert (fun _ _ _ => true) 0 1 rfl rfl rfl
      (Or.inl le_rfl)⟩

/-- C6: with an empty certificate chain, `verifyKeySignature`,
`verifyCertificateVerify`, `loadCerts`, `verifyClientCert` and
`verifyServerCert` all fail with `errLengthMismatch` (the spec's EmptyChain),
whatever every other argument is. -/
theorem empty_chain_rejected
    (parseCertificate : List Nat → Except CryptoError Certificate)
    (asn1Unmarshal : List Nat → Except CryptoError (Int × Int))
    (certVerify : Certificate → VerifyOptions →
      Except CryptoError (List (List Certificate)))
    (now : Nat) (message remoteKeySignature handshakeBodies : List Nat)
    (hashAlg : hashAlgorithm) (roots : List Certificate)
    (serverName : String) :
    verifyKeySignature parseCertificate asn1Unmarshal message
        remoteKeySignature hashAlg [] = .error .errLengthMismatch ∧
    verifyCertificateVerify parseCertificate asn1Unmarshal handshakeBodies
        hashAlg remoteKeySignature [] = .error .errLengthMismatch ∧
    loadCerts parseCertificate [] = .error .errLengthMismatch ∧
    verifyClientCert parseCertificate certVerify now [] roots =
      .error .errLengthMismatch ∧
    verifyServerCert parseCertificate certVerify now [] roots serverName =
      .error .errLengthMismatch :=
  ⟨rfl, rfl, rfl, rfl, rfl⟩

theorem loadCertsAux_first_parse_error
    (parseCertificate : List Nat → Except CryptoError Certificate)
    (bad : List Nat) (suf : List (List Nat)) (e : CryptoError)
    (hbad : parseCertificate bad = .error e) :
    ∀ (pre : List (List Nat)) (acc : List Certificate),
      (∀ b ∈ pre, ∃ c, parseCertificate b = .ok c) →
      loadCertsAux parseCertificate acc (pre ++ bad :: suf) = .error e := by
  intro pre
  induction pre with
  | nil => intro acc _; simp [loadCertsAux, hbad]
  | cons p ps ih =>
    intro acc hpre
    obtain ⟨c, hc⟩ := hpre p (List.mem_cons_self p ps)
    simp only [List.cons_append, loadCertsAux, hc]
    exact ih (acc ++ [c]) (fun b hb => hpre b (List.mem_cons_of_mem p hb))

/-- C7: `loadCerts` parses the elements of a non-empty chain in order and
fails with the parse error of the first unparseable certificate, returning
an error (hence no partial chain) to the caller. -/
theorem loadCerts_first_parse_error
    (parseCertificate : List Nat → Except CryptoError Certificate)
    (pre suf : List (List Nat)) (bad : List Nat) (e : CryptoError)
    (hpre : ∀ b ∈ pre, ∃ c, parseCertificate b = .ok c)
    (hbad : parseCertificate bad = .error e) :
    loadCerts parseCertificate (pre ++ bad :: suf) = .error e := by
  have h0 : ¬(pre ++ bad :: suf).length = 0 := by simp
  rw [loadCerts, if_neg h0]
  exact loadCertsAux_first_parse_error parseCertificate bad suf e hbad pre []
    hpre

theorem loadCerts_first_parse_error_witness :
    (∀ b ∈ [([] : List Nat)], ∃ c, demoParseByLen b = .ok c) ∧
    demoParseByLen [5] = .error (.certParseError 9) ∧
    loadCerts demoParseByLen ([[]] ++ [5] :: [[7]]) =
      .error (.certParseError 9) := by
  have hpre : ∀ b ∈ [([] : List Nat)], ∃ c, demoParseByLen b = .ok c := by
    intro b hb
    simp only [List.mem_singleton] at hb
    subst hb
    exact ⟨default, rfl⟩
  exact ⟨hpre, rfl,
    loadCerts_first_parse_error demoParseByLen [[]] [[7]] [5]
      (.certParseError 9) hpre rfl⟩

/-- C8: when the leaf certificate carries an RSA public key, verification
proceeds (PKCS#1 v1.5 over `hashAlg.digest`) exactly when the certificate's
declared signature algorithm is one of the four PKCS#1 v1.5 SHA families;
with any other declared algorithm, or with a public key outside the three
variants, both verifiers fail with `errKeySignatureVerifyUnimplemented`
(the spec's UnsupportedKeyType). -/
theorem rsa_requires_pkcs1_sigalg
    (parseCertificate : List Nat → Except CryptoError Certificate)
    (asn1Unmarshal : List Nat → Except CryptoError (Int × Int))
    (message handshakeBodies remoteKeySignature raw0 : List Nat)
    (hashAlg : hashAlgorithm) (rest : List (List Nat)) (cert : Certificate)
    (vrfy : Nat → List Nat → List Nat → Except CryptoError Unit)
    (hparse : parseCertificate raw0 = .ok cert) :
    (cert.publicKey = .rsaPub vrfy →
      ((cert.signatureAlgorithm = .SHA1WithRSA ∨
        cert.signatureAlgorithm = .SHA256WithRSA ∨
        cert.signatureAlgorithm = .SHA384WithRSA ∨
        cert.signatureAlgorithm = .SHA512WithRSA) →
        verifyKeySignature parseCertificate asn1Unmarshal message
            remoteKeySignature hashAlg (raw0 :: rest) =
          vrfy hashAlg.cryptoHash (hashAlg.digest message)
            remoteKeySignature ∧
        verifyCertificateVerify parseCertificate asn1Unmarshal
            handshakeBodies hashAlg remoteKeySignature (raw0 :: rest) =
          vrfy hashAlg.cryptoHash (hashAlg.digest handshakeBodies)
            remoteKeySignature) ∧
      (∀ a, cert.signatureAlgorithm = .otherAlgorithm a →
        verifyKeySignature parseCertificate asn1Unmarshal message
            remoteKeySignature hashAlg (raw0 :: rest) =
          .error .errKeySignatureVerifyUnimplemented ∧
        verifyCertificateVerify parseCertificate asn1Unmarshal
            handshakeBodies hashAlg remoteKeySignature (raw0 :: rest) =
          .error .errKeySignatureVerifyUnimplemented)) ∧
    (∀ k, cert.publicKey = .otherPub k →
      verifyKeySignature parseCertificate asn1Unmarshal message
          remoteKeySignature hashAlg (raw0 :: rest) =
        .error .errKeySignatureVerifyUnimplemented ∧
      verifyCertificateVerify parseCertificate asn1Unmarshal
          handshakeBodies hashAlg remoteKeySignature (raw0 :: rest) =
        .error .errKeySignatureVerifyUnimplemented) := by
  refine ⟨fun hkey => ⟨fun hsa => ?_, fun a hsa => ?_⟩, fun k hkey => ?_⟩
  · rcases hsa with hsa | hsa | hsa | hsa <;>
      simp [verifyKeySignature, verifyCertificateVerify, hparse, hkey, hsa]
  · simp [verifyKeySignature, verifyCertificateVerify, hparse, hkey, hsa]
  · simp [verifyKeySignature, verifyCertificateVerify, hparse, hkey]

theorem rsa_requires_pkcs1_sigalg_witness :
    demoParseRsa [0] = .ok rsaDemoCert ∧
    verifyKeySignature demoParseRsa demoAsn1 [1] [9] demoHashAlg [[0]] =
      .ok () ∧
    verifyCertificateVerify demoParseRsa demoAsn1 [2] demoHashAlg [9]
      [[0]] = .ok () := by
  have h := (rsa_requires_pkcs1_sigalg demoParseRsa demoAsn1 [1] [2] [9] [0]
    demoHashAlg [] rsaDemoCert (fun _ _ _ => .ok ()) rfl).1 rfl
  have h2 := h.1 (Or.inr (Or.inl rfl))
  exact ⟨rfl, h2.1.trans rfl, h2.2.trans rfl⟩

theorem foldl_addCert (l : List Certificate) :
    ∀ acc, l.foldl addCert acc = acc ++ l := by
  induction l with
  | nil => intro acc; simp
  | cons c cs ih => intro acc; simp [addCert, ih]

/-- C9: when the chain loads as `leaf :: intermediates`, both validators call
the external `x509.Certificate.Verify` on the leaf, with an intermediate pool
holding every certificate after index 0, the caller's roots, and the current
wall-clock instant `now`; the client-role validator additionally pins
`KeyUsages` to `[ExtKeyUsageClientAuth]` (and leaves `DNSName` empty), while
the server-role validator pins `DNSName` to `expectedServerName` and imposes
no extended-key-usage restriction (`KeyUsages = []`). -/
theorem chain_validators_options
    (parseCertificate : List Nat → Except CryptoError Certificate)
    (certVerify : Certificate → VerifyOptions →
      Except CryptoError (List (List Certificate)))
    (now : Nat) (raw : List (List Nat)) (roots : List Certificate)
    (serverName : String) (leaf : Certificate)
    (intermediates : List Certificate)
    (hload : loadCerts parseCertificate raw = .ok (leaf :: intermediates)) :
    verifyClientCert parseCertificate certVerify now raw roots =
      certVerify leaf
        { Roots := roots, CurrentTime := now, DNSName := "",
          Intermediates := intermediates,
          KeyUsages := [ExtKeyUsageClientAuth] } ∧
    verifyServerCert parseCertificate certVerify now raw roots serverName =
      certVerify leaf
        { Roots := roots, CurrentTime := now, DNSName := serverName,
          Intermediates := intermediates, KeyUsages := [] } := by
  constructor <;>
    simp [verifyClientCert, verifyServerCert, hload, newCertPool,
      foldl_addCert, List.headI]

theorem chain_validators_options_witness :
    loadCerts demoParseRsa [[0], [1]] = .ok [rsaDemoCert, rsaDemoCert] ∧
    (verifyClientCert demoParseRsa demoCertVerify 0 [[0], [1]] [] =
        demoCertVerify rsaDemoCert
          { Roots := [], CurrentTime := 0, DNSName := "",
            Intermediates := [rsaDemoCert],
            KeyUsages := [ExtKeyUsageClientAuth] } ∧
      verifyServerCert demoParseRsa demoCertVerify 0 [[0], [1]] [] "srv" =
        demoCertVerify rsaDemoCert
          { Roots := [], CurrentTime := 0, DNSName := "srv",
            Intermediates := [rsaDemoCert], KeyUsages := [] }) :=
  ⟨rfl, chain_validators_options demoParseRsa demoCertVerify 0 [[0], [1]]
    [] "srv" rsaDemoCert [rsaDemoCert] rfl⟩

/-- C1 (code bug): the verifier side behaves as the claim states -- Ed25519
certificate-verify signatures are checked over the raw transcript bytes and
ECDSA/RSA ones over the negotiated `hashAlg.digest` of it -- but on the
generator side the Ed25519 branch of `generateCertificateVerify` signs the
SHA-256 digest of the transcript (the same `hashed` value the ECDSA/RSA
branches sign), not the raw transcript.  Hence an Ed25519
certificate-verify produced by the generator never passes the verifier:
below, with a toy deterministic scheme where `sign` is the identity and
`verify m s` holds exactly when `s = m`, the generated signature is
`demoSha256 [1] ≠ [1]` and verification fails with
`errKeySignatureMismatch`, while the signature the claim prescribes (over
the raw transcript `[1]`) verifies. -/
theorem certificateVerify_ed25519_prehash_bug :
    (∀ (sha256Sum : List Nat → List Nat) (handshakeBodies : List Nat)
      (sign : List Nat → List Nat) (hashAlg : hashAlgorithm),
      generateCertificateVerify sha256Sum handshakeBodies
          (.ed25519Priv sign) hashAlg =
        .ok (sign (sha256Sum handshakeBodies))) ∧
    (∀ (asn1Unmarshal : List Nat → Except CryptoError (Int × Int))
      (handshakeBodies remoteKeySignature raw0 : List Nat)
      (rest : List (List Nat)) (hashAlg : hashAlgorithm)
      (sa : SignatureAlgorithm) (n : Nat) (vf : List Nat → List Nat → Bool),
      verifyCertificateVerify (fun _ => .ok ⟨.ed25519Pub vf, sa, n⟩)
          asn1Unmarshal handshakeBodies hashAlg remoteKeySignature
          (raw0 :: rest) =
        if vf handshakeBodies remoteKeySignature then .ok ()
        else .error .errKeySignatureMismatch) ∧
    (generateCertificateVerify demoSha256 [1] (.ed25519Priv (fun m => m))
        demoHashAlg = .ok (demoSha256 [1]) ∧
      demoSha256 [1] ≠ [1] ∧
      verifyCertificateVerify demoParseEdToy demoAsn1 [1] demoHashAlg
          (demoSha256 [1]) [[0]] = .error .errKeySignatureMismatch ∧
      verifyCertificateVerify demoParseEdToy demoAsn1 [1] demoHashAlg [1]
          [[0]] = .ok ()) :=
  ⟨fun _ _ _ _ => rfl, fun _ _ _ _ _ _ _ _ _ => rfl,
    rfl, by decide, rfl, rfl⟩

end Dtls
